import Mathlib

/-!
Shallow embedding of the lightyear UDP transport backend
(`src/lightyear/src/transport/udp.rs`) and of the spaceships example
server systems (`src/examples/spaceships/src/server.rs`).

OS-level effects (binding a socket, `recv_from`, `send_to`, `peek_from`)
are nondeterministic inputs of the environment: each embedded operation
takes the outcome the operating system would produce as an explicit
argument and computes what the Rust code does with it.
-/

namespace Lightyear

/-- Modelled from the spec: packets are "bounded by a maximum transmission
size"; the constant `MTU` itself lives in `transport/mod.rs`, which is not
among the provided sources. The concrete value (1472, the usual UDP-over-
Ethernet budget) is irrelevant to every claim below; only `0 < MTU` is used. -/
def MTU : Nat := 1472

/-- The subset of `std::io::ErrorKind` values the embedded code inspects,
plus a catch-all for every other kind. -/
inductive ErrorKind where
  | wouldBlock
  | connectionReset
  | addrInUse
  | permissionDenied
  | other (code : Nat)
deriving DecidableEq, Repr

/-- `std::net::SocketAddr`, reduced to the data the code compares. -/
structure SocketAddr where
  ip : Nat
  port : Nat
deriving DecidableEq, Repr

/-- Modelled from the spec: the connection-state token, "Disconnected →
Connecting → Connected" (§3); `IoState` is declared in `transport/io.rs`,
not among the provided sources. -/
inductive IoState where
  | Disconnected
  | Connecting
  | Connected
deriving DecidableEq, Repr

/-- `UdpSocketBuffer`: one half of the split transport. `socket` is the
`Arc<Mutex<std::net::UdpSocket>>` handle, modelled by the identity of the
underlying OS socket (two halves share the handle iff the ids are equal);
`buffer` is the fixed `[u8; MTU]` receive buffer, bytes as `Nat`. -/
structure UdpSocketBuffer where
  socket : Nat
  buffer : List Nat
deriving DecidableEq, Repr

/-- `UdpSocket`: the built backend, before `split()`. -/
structure UdpSocket where
  local_addr : SocketAddr
  sender : UdpSocketBuffer
  receiver : UdpSocketBuffer
deriving DecidableEq, Repr

/-- `UdpSocketBuilder { local_addr }`. -/
structure UdpSocketBuilder where
  local_addr : SocketAddr
deriving DecidableEq, Repr

/-- The outcomes the OS produces for the three fallible calls inside
`UdpSocketBuilder::build`: `UdpSocket::bind` (a fresh socket handle on
success), `local_addr()`, and `set_nonblocking(true)`. -/
structure BuildEnv where
  bindResult : Except ErrorKind Nat
  localAddrResult : Except ErrorKind SocketAddr
  setNonblockingResult : Except ErrorKind Unit
deriving Repr

/-- `UdpSocketBuilder::build`: bind the socket (`?` propagates the error),
read the local address, set non-blocking mode, then wrap the handle in an
`Arc<Mutex<_>>` shared by a sender half and its clone, the receiver half,
each holding a zeroed MTU-sized buffer. -/
def UdpSocketBuilder.build (_self : UdpSocketBuilder) (env : BuildEnv) :
    Except ErrorKind UdpSocket :=
  match env.bindResult with
  | .error e => .error e
  | .ok handle =>
    match env.localAddrResult with
    | .error e => .error e
    | .ok local_addr =>
      match env.setNonblockingResult with
      | .error e => .error e
      | .ok () =>
        let sender : UdpSocketBuffer := { socket := handle, buffer := List.replicate MTU 0 }
        let receiver := sender
        .ok { local_addr := local_addr, sender := sender, receiver := receiver }

/-- `ClientTransportEnum`: the tagged sum of client backends; only the
`UdpSocket` variant is among the provided sources, the others are omitted. -/
inductive ClientTransportEnum where
  | UdpSocket (s : UdpSocket)
deriving Repr

/-- `ServerTransportEnum`: the tagged sum of server backends; only the
`UdpSocket` variant is among the provided sources, the others are omitted. -/
inductive ServerTransportEnum where
  | UdpSocket (s : UdpSocket)
deriving Repr

/-- `ClientTransportBuilder::connect for UdpSocketBuilder`: build, then pair
the backend with `IoState::Connected` and two empty event-channel slots
(the slot element types live outside the provided sources and are opaque
here, hence `Option Unit`). -/
def UdpSocketBuilder.connect (self : UdpSocketBuilder) (env : BuildEnv) :
    Except ErrorKind (ClientTransportEnum × IoState × Option Unit × Option Unit) :=
  match self.build env with
  | .error e => .error e
  | .ok s => .ok (.UdpSocket s, .Connected, none, none)

/-- `ServerTransportBuilder::start for UdpSocketBuilder`: build, then pair
the backend with `IoState::Connected` and two empty event-channel slots. -/
def UdpSocketBuilder.start (self : UdpSocketBuilder) (env : BuildEnv) :
    Except ErrorKind (ServerTransportEnum × IoState × Option Unit × Option Unit) :=
  match self.build env with
  | .error e => .error e
  | .ok s => .ok (.UdpSocket s, .Connected, none, none)

/-- `Transport::split for UdpSocket`. -/
def UdpSocket.split (self : UdpSocket) : UdpSocketBuffer × UdpSocketBuffer :=
  (self.sender, self.receiver)

/-- The outcomes the OS produces for the fallible calls inside
`PacketSender::send`: `peek_from` (number of bytes peeked on success; only
consulted on Windows) and `send_to` (number of bytes sent on success). -/
structure SendEnv where
  peekResult : Except ErrorKind Nat
  sendToResult : Except ErrorKind Nat
deriving Repr

/-- `PacketSender::send for UdpSocketBuffer`: lock the socket; on Windows
(`targetOsWindows`), first `peek_from` into a 1-byte buffer — `Ok` and
`WouldBlock` fall through, any other error returns early — then
`send_to(payload, address)?` and `Ok(())`. The payload and address flow to
the OS and do not influence the Rust-side result, which is all this
embedding computes. -/
def UdpSocketBuffer.send (_self : UdpSocketBuffer) (targetOsWindows : Bool)
    (env : SendEnv) (_payload : List Nat) (_address : SocketAddr) :
    Except ErrorKind Unit :=
  let afterPeek : Except ErrorKind Unit :=
    match env.sendToResult with
    | .ok _ => .ok ()
    | .error e => .error e
  if targetOsWindows then
    match env.peekResult with
    | .ok _ => afterPeek
    | .error e => if e = .wouldBlock then afterPeek else .error e
  else
    afterPeek

/-- `PacketReceiver::recv for UdpSocketBuffer`: lock the socket and call
`recv_from(&mut self.buffer)`. The OS outcome is either a pending datagram
with its source address — of which `recv_from` copies the first
`min (length, MTU)` bytes into the buffer and reports that count — or an
error. `Ok((recv_len, address))` yields `Some` of the buffer prefix of
length `recv_len` paired with the address; a `WouldBlock` error yields
`Ok(None)`; any other error is returned as `Err`. The returned state is the
receiver after the call (its buffer as `recv_from` left it). -/
def UdpSocketBuffer.recv (self : UdpSocketBuffer)
    (os : Except ErrorKind (List Nat × SocketAddr)) :
    Except ErrorKind (Option (List Nat × SocketAddr) × UdpSocketBuffer) :=
  match os with
  | .ok (datagram, address) =>
    let written := datagram.take MTU
    let recv_len := written.length
    let newBuffer := written ++ self.buffer.drop recv_len
    .ok (some (newBuffer.take recv_len, address), { self with buffer := newBuffer })
  | .error e =>
    if e = .wouldBlock then .ok (none, self) else .error e

/-- `NetworkTarget`, the filter over connected client ids: variants `All`,
`Single(id)`, `AllExceptSingle(id)`, `Only(set)` (spec §3); client ids as
`Nat`. -/
inductive NetworkTarget where
  | All
  | Single (id : Nat)
  | AllExceptSingle (id : Nat)
  | Only (ids : List Nat)
deriving DecidableEq, Repr

/-- Modelled from the spec: a `NetworkTarget` is "a filter over the set of
connected ClientIds" (§3) — `All` matches every peer, `Single i` exactly
peer `i`, `AllExceptSingle i` every peer but `i`, `Only s` the peers in
`s`. The evaluation function itself lives in the lightyear core, outside
the provided sources. -/
def NetworkTarget.targets : NetworkTarget → Nat → Bool
  | .All, _ => true
  | .Single i, j => j == i
  | .AllExceptSingle i, j => j != i
  | .Only s, j => s.contains j

/-- Modelled from the spec: `InputMessage<PlayerActions>` (declared in the
lightyear core, outside the provided sources) carries "the tick value at
send time ... attached to every input" (§4.3) together with the input
payload; the relay treats it as an opaque value, so the payload is reduced
to a `Nat`. -/
structure InputMessage where
  tick : Int
  payload : Nat
deriving DecidableEq, Repr

/-- A `MessageEvent<InputMessage<PlayerActions>>` drained by the server:
`message()` is the received input message, `context()` the sending
client's id. -/
structure MessageEvent where
  message : InputMessage
  context : Nat
deriving DecidableEq, Repr

/-- The channels named by the embedded systems; only `InputChannel` occurs. -/
inductive ChannelKind where
  | InputChannel
deriving DecidableEq, Repr

/-- One call to `ConnectionManager::send_message_to_target::<InputChannel, _>`
recorded by the embedding: the channel, the message, and the target. -/
structure SentMessage where
  channel : ChannelKind
  message : InputMessage
  target : NetworkTarget
deriving DecidableEq, Repr

/-- `replicate_inputs` (spaceships server): for each drained input event —
with no validation, the write-once rule is only an "Optional" comment —
rebroadcast the event's message on `InputChannel` with target
`NetworkTarget::AllExceptSingle(*client_id)`, the sender's id. The result
is the list of send calls the system issues, in event order. -/
def replicate_inputs (input_events : List MessageEvent) : List SentMessage :=
  input_events.map fun event =>
    { channel := .InputChannel
      message := event.message
      target := .AllExceptSingle event.context }

/-- `NAMES`: the fixed 50-entry name array of the spaceships server. -/
def NAMES : List String :=
  ["Ellen Ripley", "Sarah Connor", "Neo", "Trinity", "Morpheus",
   "John Connor", "T-800", "T-1000", "Roy Batty", "Rick Deckard",
   "Princess Leia", "Han Solo", "Spock", "James T. Kirk", "Hikaru Sulu",
   "Nyota Uhura", "Jean-Luc Picard", "Data", "Beverly Crusher",
   "Seven of Nine", "Doctor Who", "Rose Tyler", "Marty McFly", "Doc Brown",
   "Dana Scully", "Fox Mulder", "Riddick", "Leeloo", "Korben Dallas",
   "Barbarella", "Dave Bowman", "HAL 9000", "Zorg",
   "Major Motoko Kusanagi", "Optimus Prime", "Megatron", "Furiosa",
   "Max Rockatansky", "Quorra", "Sam Flynn", "Snake Plissken", "Lois Lane",
   "Clark Kent", "Tony Stark", "Natasha Romanoff", "Bruce Banner",
   "Diana Prince", "Peter Quill", "Gamora", "Mr. T"]

/-- `pick_player_name`: index `NAMES` at `client_id % NAMES.len()`. The
Rust indexing `NAMES[index]` panics when out of bounds; that branch is kept
visible as the `none` case of `List.get?`. Client ids are `u64`; `Nat`
subsumes that range. -/
def pick_player_name (client_id : Nat) : Option String :=
  NAMES.get? (client_id % NAMES.length)

/-- A `ConnectEvent` drained by `handle_connections`. -/
structure ConnectEvent where
  client_id : Nat
deriving DecidableEq, Repr

/-- The length of the `available_colors` array in `handle_connections`. -/
def available_colors_len : Nat := 12

/-- The components of the player entity bundle `handle_connections` spawns
that carry replication-relevant data. Floating-point fields (spawn
position, weapon cadence) and the color value itself are outside the
embedding; `color_index` records which entry of `available_colors` is
chosen. `override_action_state` is the `NetworkTarget` of the
`OverrideTargetComponent::<ActionState<PlayerActions>>` component. -/
structure PlayerBundle where
  player_client_id : Nat
  player_name : Option String
  prediction_target : NetworkTarget
  controlled_by : NetworkTarget
  color_index : Nat
  override_action_state : NetworkTarget
deriving DecidableEq, Repr

/-- `handle_connections` (spaceships server): starting from `player_n`
connected players, for each connect event spawn a player entity — name from
`pick_player_name(client_id.to_bits())`, prediction sync target `All`,
`ControlledBy` target `Single(client_id)`, color
`available_colors[player_n % 12]`, and an
`OverrideTargetComponent::<ActionState<PlayerActions>>` with target
`AllExceptSingle(client_id)` — then increment `player_n`. Returns the
spawned bundles in event order. -/
def handle_connections (player_n : Nat) : List ConnectEvent → List PlayerBundle
  | [] => []
  | connection :: rest =>
    { player_client_id := connection.client_id
      player_name := pick_player_name connection.client_id
      prediction_target := .All
      controlled_by := .Single connection.client_id
      color_index := player_n % available_colors_len
      override_action_state := .AllExceptSingle connection.client_id }
      :: handle_connections (player_n + 1) rest

/-! ## Lock discipline of the split halves

`send` and `recv` both run their socket calls inside
`self.socket.as_ref().lock().unwrap()`; the guard is dropped when the call
returns. The two halves may live on different threads, so their lock /
socket-call / unlock step sequences interleave. The model below runs the
two straight-line step lists under a mutex that a thread can only acquire
when free and only release when holding it, which is the contract of the
`Mutex` the code wraps the socket in. -/

/-- The OS socket calls the two halves perform under the lock. -/
inductive SockOp where
  | peekFrom
  | sendTo
  | recvFrom
deriving DecidableEq, Repr

/-- One step of a call's lock discipline: acquire, perform a socket call,
release. -/
inductive LockStep where
  | acquire
  | sockOp (o : SockOp)
  | release
deriving DecidableEq, Repr

/-- The step sequence of one `PacketSender::send` call: take the lock, on
Windows `peek_from` then `send_to`, otherwise just `send_to`, then release
the guard. -/
def sendSteps (targetOsWindows : Bool) : List LockStep :=
  .acquire ::
    (if targetOsWindows then [.sockOp .peekFrom, .sockOp .sendTo]
     else [.sockOp .sendTo]) ++ [.release]

/-- The step sequence of one `PacketReceiver::recv` call: take the lock,
`recv_from`, release the guard. -/
def recvSteps : List LockStep :=
  [.acquire, .sockOp .recvFrom, .release]

/-- Interleaving state: the remaining steps of the sender thread's call and
of the receiver thread's call, and who holds the mutex (`some true` the
sender, `some false` the receiver, `none` nobody). -/
structure LockState where
  senderRest : List LockStep
  receiverRest : List LockStep
  owner : Option Bool
deriving DecidableEq, Repr

/-- What one thread may do next: `acquire` only when the mutex is free,
socket calls unconditionally (the discipline, not the hardware, keeps them
inside the critical section), `release` only by the holder. -/
def threadStep (isSender : Bool) (rest : List LockStep) (owner : Option Bool) :
    Option (List LockStep × Option Bool) :=
  match rest with
  | [] => none
  | .acquire :: tl =>
    match owner with
    | none => some (tl, some isSender)
    | some _ => none
  | .sockOp _ :: tl => some (tl, owner)
  | .release :: tl =>
    match owner with
    | some t => if t = isSender then some (tl, none) else none
    | none => none

/-- All successor states of an interleaving state: either thread moves. -/
def lockStepFn (s : LockState) : List LockState :=
  (match threadStep true s.senderRest s.owner with
   | some (tl, ow) => [{ s with senderRest := tl, owner := ow }]
   | none => []) ++
  (match threadStep false s.receiverRest s.owner with
   | some (tl, ow) => [{ s with receiverRest := tl, owner := ow }]
   | none => [])

/-- Initial state: one pending `send` call and one pending `recv` call,
mutex free. -/
def lockInit (targetOsWindows : Bool) : LockState :=
  { senderRest := sendSteps targetOsWindows
    receiverRest := recvSteps
    owner := none }

/-- States reachable from `lockInit` under any interleaving. -/
inductive LockReachable (w : Bool) : LockState → Prop where
  | refl : LockReachable w (lockInit w)
  | tail {s s'} : LockReachable w s → s' ∈ lockStepFn s → LockReachable w s'

/-- A call whose remaining steps `rest` (a suffix of its full sequence
`full`) has executed `acquire` but not yet `release` is in its critical
section. -/
def inCritical (full rest : List LockStep) : Prop :=
  rest.length < full.length ∧ rest ≠ []

instance (full rest : List LockStep) : Decidable (inCritical full rest) := by
  unfold inCritical; infer_instance

/-- Breadth-first closure step over interleaving states. -/
def exploreStep (states : List LockState) : List LockState :=
  (states ++ states.flatMap lockStepFn).dedup

/-- Every state reachable in at most 8 steps (enough: the two calls make at
most 7 steps in total, Windows included). -/
def lockReach (w : Bool) : List LockState :=
  Nat.iterate exploreStep 8 [lockInit w]

/-! ## Helper lemmas -/

/-- The initial interleaving state is in the explored set. -/
theorem lockReach_init : ∀ w : Bool, lockInit w ∈ lockReach w := by decide

/-- The explored set is closed under the step relation. -/
theorem lockReach_closed : ∀ w : Bool, ∀ s ∈ lockReach w, ∀ s' ∈ lockStepFn s,
    s' ∈ lockReach w := by decide

/-- Every reachable interleaving state is in the explored set. -/
theorem lockReachable_mem {w : Bool} {s : LockState} (h : LockReachable w s) :
    s ∈ lockReach w := by
  induction h with
  | refl => exact lockReach_init w
  | tail _ hstep ih => exact lockReach_closed w _ ih _ hstep

/-- In no explored state are both calls inside their critical sections. -/
theorem lockReach_mutex : ∀ w : Bool, ∀ s ∈ lockReach w,
    ¬(inCritical (sendSteps w) s.senderRest ∧ inCritical recvSteps s.receiverRest) := by
  decide

/-! ## Claim theorems -/

/-- C1: `UdpSocketBuffer.recv` returns either exactly one pending datagram
(a byte view paired with its source address), or `None` when no data is
available — the OS's `WouldBlock` condition is mapped to `Ok(None)`, not to
an error — while every other I/O error from the socket is returned as an
`Err`, distinct from the no-data case. -/
theorem C1_recv_one_none_or_error (st : UdpSocketBuffer)
    (os : Except ErrorKind (List Nat × SocketAddr)) :
    (∀ d a, os = .ok (d, a) →
        ∃ view st', st.recv os = .ok (some (view, a), st')) ∧
    st.recv (.error .wouldBlock) = .ok (none, st) ∧
    (∀ e, e ≠ .wouldBlock → st.recv (.error e) = .error e) := by
  refine ⟨?_, rfl, ?_⟩
  · rintro d a rfl
    exact ⟨_, _, rfl⟩
  · intro e he
    simp [UdpSocketBuffer.recv, he]

/-- Witness for C1 at a concrete receiver, datagram and error. -/
theorem C1_witness :
    (∃ view st',
        (UdpSocketBuffer.mk 0 (List.replicate MTU 0)).recv
            (.ok ([1, 2, 3], SocketAddr.mk 7 40000)) =
          .ok (some (view, SocketAddr.mk 7 40000), st')) ∧
    (UdpSocketBuffer.mk 0 (List.replicate MTU 0)).recv (.error (.other 5)) =
      .error (.other 5) :=
  ⟨(C1_recv_one_none_or_error _ _).1 [1, 2, 3] _ rfl,
   (C1_recv_one_none_or_error (UdpSocketBuffer.mk 0 (List.replicate MTU 0))
      (.error (.other 5))).2.2 _ (by decide)⟩

/-- C5: whenever `connect()` (client) or `start()` (server) succeeds, it
returns the backend built by `build` together with `IoState::Connected`
and no asynchronous event channels: both optional channel slots are
`None`. -/
theorem C5_connect_start_connected_no_channels (b : UdpSocketBuilder) (env : BuildEnv) :
    (∀ r, b.connect env = .ok r →
        (∃ s, b.build env = .ok s ∧ r.1 = .UdpSocket s) ∧
          r.2.1 = .Connected ∧ r.2.2.1 = none ∧ r.2.2.2 = none) ∧
    (∀ r, b.start env = .ok r →
        (∃ s, b.build env = .ok s ∧ r.1 = .UdpSocket s) ∧
          r.2.1 = .Connected ∧ r.2.2.1 = none ∧ r.2.2.2 = none) := by
  constructor <;> intro r h
  · unfold UdpSocketBuilder.connect at h
    cases hb : b.build env with
    | error e => rw [hb] at h; cases h
    | ok s =>
      rw [hb] at h
      cases h
      exact ⟨⟨s, rfl, rfl⟩, rfl, rfl, rfl⟩
  · unfold UdpSocketBuilder.start at h
    cases hb : b.build env with
    | error e => rw [hb] at h; cases h
    | ok s =>
      rw [hb] at h
      cases h
      exact ⟨⟨s, rfl, rfl⟩, rfl, rfl, rfl⟩

/-- Witness for C5 at a concrete builder and successful OS environment. -/
theorem C5_witness :
    (∃ s, (UdpSocketBuilder.mk (SocketAddr.mk 0 0)).build
          (BuildEnv.mk (.ok 5) (.ok (SocketAddr.mk 127 9000)) (.ok ())) = .ok s ∧
        ClientTransportEnum.UdpSocket
            (UdpSocket.mk (SocketAddr.mk 127 9000)
              (UdpSocketBuffer.mk 5 (List.replicate MTU 0))
              (UdpSocketBuffer.mk 5 (List.replicate MTU 0))) = .UdpSocket s) ∧
      IoState.Connected = IoState.Connected ∧
      (none : Option Unit) = none ∧ (none : Option Unit) = none :=
  (C5_connect_start_connected_no_channels (UdpSocketBuilder.mk (SocketAddr.mk 0 0))
      (BuildEnv.mk (.ok 5) (.ok (SocketAddr.mk 127 9000)) (.ok ()))).1 _ rfl

/-- C6: if binding the local UDP socket fails, `build` — and hence
`connect()` and `start()` — returns that I/O error to the caller; the
builder never succeeds when the bind failed. -/
theorem C6_bind_failure_is_returned (b : UdpSocketBuilder) (env : BuildEnv)
    (e : ErrorKind) (h : env.bindResult = .error e) :
    b.build env = .error e ∧ b.connect env = .error e ∧ b.start env = .error e := by
  have hb : b.build env = .error e := by
    unfold UdpSocketBuilder.build
    rw [h]
  refine ⟨hb, ?_, ?_⟩
  · unfold UdpSocketBuilder.connect
    rw [hb]
  · unfold UdpSocketBuilder.start
    rw [hb]

/-- Witness for C6: an address-in-use bind failure at a concrete builder. -/
theorem C6_witness :
    (UdpSocketBuilder.mk (SocketAddr.mk 0 4000)).build
        (BuildEnv.mk (.error .addrInUse) (.ok (SocketAddr.mk 0 4000)) (.ok ())) =
      .error .addrInUse ∧
    (UdpSocketBuilder.mk (SocketAddr.mk 0 4000)).connect
        (BuildEnv.mk (.error .addrInUse) (.ok (SocketAddr.mk 0 4000)) (.ok ())) =
      .error .addrInUse ∧
    (UdpSocketBuilder.mk (SocketAddr.mk 0 4000)).start
        (BuildEnv.mk (.error .addrInUse) (.ok (SocketAddr.mk 0 4000)) (.ok ())) =
      .error .addrInUse :=
  C6_bind_failure_is_returned _ _ _ rfl

/-- C10: `pick_player_name` is total over every client id: `NAMES` has 50
entries, the index `client_id % NAMES.length` is always in bounds (so the
out-of-bounds panic branch is unreachable), the result is always one of the
50 fixed names, and equal client ids always yield the same name. -/
theorem C10_pick_player_name_total :
    NAMES.length = 50 ∧
    (∀ client_id : Nat, client_id % NAMES.length < NAMES.length ∧
        ∃ s, pick_player_name client_id = some s ∧ s ∈ NAMES) ∧
    (∀ i j : Nat, i = j → pick_player_name i = pick_player_name j) := by
  refine ⟨rfl, fun client_id => ⟨Nat.mod_lt _ (by decide), ?_⟩, fun i j hij => hij ▸ rfl⟩
  have hlt : client_id % NAMES.length < NAMES.length := Nat.mod_lt _ (by decide)
  exact ⟨NAMES.get ⟨_, hlt⟩, List.get?_eq_get hlt, List.get_mem _ _ _⟩

/-- Witness for C10's determinism clause at a concrete client id. -/
theorem C10_witness : pick_player_name 52 = pick_player_name 52 :=
  C10_pick_player_name_total.2.2 52 52 rfl

/-- C7: the receiver owns one fixed-capacity MTU-byte buffer reused by
every `recv` call: the buffer built by `build` has length `MTU`; a
successful `recv` returns the view that is the initial segment of that same
buffer of the received datagram's length (at most `MTU`), leaves the buffer
at length `MTU` and touches no state outside it (the socket handle is
unchanged); and a subsequent `recv` may overwrite the bytes previously
returned — at a concrete pair of datagrams the first view's contents are
not preserved. -/
theorem C7_fixed_buffer_reuse :
    (∀ (b : UdpSocketBuilder) (env : BuildEnv) (s : UdpSocket),
        b.build env = .ok s → s.receiver.buffer.length = MTU) ∧
    (∀ (st : UdpSocketBuffer) (d : List Nat) (a : SocketAddr),
        st.buffer.length = MTU →
        ∃ st', st.recv (.ok (d, a)) =
            .ok (some (st'.buffer.take (d.take MTU).length, a), st') ∧
          (d.take MTU).length ≤ MTU ∧
          st'.buffer.length = MTU ∧
          st'.socket = st.socket) ∧
    (∃ st1 st2,
        (UdpSocketBuffer.mk 0 (List.replicate MTU 0)).recv
            (.ok ([7], SocketAddr.mk 1 1)) =
          .ok (some ([7], SocketAddr.mk 1 1), st1) ∧
        st1.recv (.ok ([9], SocketAddr.mk 1 1)) =
          .ok (some ([9], SocketAddr.mk 1 1), st2) ∧
        st2.buffer.take 1 ≠ [7]) := by
  refine ⟨?_, ?_, ?_⟩
  · intro b env s h
    unfold UdpSocketBuilder.build at h
    cases h1 : env.bindResult with
    | error e => rw [h1] at h; cases h
    | ok handle =>
      rw [h1] at h
      cases h2 : env.localAddrResult with
      | error e => rw [h2] at h; cases h
      | ok la =>
        rw [h2] at h
        cases h3 : env.setNonblockingResult with
        | error e => rw [h3] at h; cases h
        | ok u =>
          cases u
          rw [h3] at h
          cases h
          simp
  · intro st d a hlen
    refine ⟨{ st with buffer := d.take MTU ++ st.buffer.drop (d.take MTU).length },
      rfl, ?_, ?_, rfl⟩
    · rw [List.length_take]
      exact min_le_left _ _
    · simp [List.length_take, List.length_drop, hlen]
  · exact ⟨_, _, rfl, rfl, by decide⟩

/-- Witness for C7 at a concrete built socket and a concrete datagram. -/
theorem C7_witness :
    (UdpSocket.mk (SocketAddr.mk 127 9000)
        (UdpSocketBuffer.mk 5 (List.replicate MTU 0))
        (UdpSocketBuffer.mk 5 (List.replicate MTU 0))).receiver.buffer.length = MTU ∧
    ∃ st', (UdpSocketBuffer.mk 0 (List.replicate MTU 0)).recv
          (.ok ([1, 2], SocketAddr.mk 3 3)) =
        .ok (some (st'.buffer.take (([1, 2] : List Nat).take MTU).length,
          SocketAddr.mk 3 3), st') ∧
      (([1, 2] : List Nat).take MTU).length ≤ MTU ∧
      st'.buffer.length = MTU ∧
      st'.socket = (UdpSocketBuffer.mk 0 (List.replicate MTU 0)).socket :=
  ⟨C7_fixed_buffer_reuse.1 (UdpSocketBuilder.mk (SocketAddr.mk 0 0))
      (BuildEnv.mk (.ok 5) (.ok (SocketAddr.mk 127 9000)) (.ok ())) _ rfl,
   C7_fixed_buffer_reuse.2.1 (UdpSocketBuffer.mk 0 (List.replicate MTU 0))
      [1, 2] (SocketAddr.mk 3 3) (by simp)⟩

/-- C3: `replicate_inputs` issues exactly one send per received input
event, carrying the event's message unchanged, on `InputChannel`, with
target `AllExceptSingle(sender)` — a target that excludes the submitting
client and includes every other client id. -/
theorem C3_relay_unchanged_all_except_sender (input_events : List MessageEvent) :
    (replicate_inputs input_events).length = input_events.length ∧
    ∀ event ∈ input_events,
      ∃ sent ∈ replicate_inputs input_events,
        sent.channel = .InputChannel ∧
        sent.message = event.message ∧
        sent.target = .AllExceptSingle event.context ∧
        sent.target.targets event.context = false ∧
        ∀ j, j ≠ event.context → sent.target.targets j = true := by
  refine ⟨by simp [replicate_inputs], fun event hev => ?_⟩
  refine ⟨_, List.mem_map_of_mem _ hev, rfl, rfl, rfl, ?_, ?_⟩
  · simp [NetworkTarget.targets]
  · intro j hj
    simp [NetworkTarget.targets, hj]

/-- Witness for C3: one concrete input event from client 7 is relayed. -/
theorem C3_witness :
    ∃ sent ∈ replicate_inputs [MessageEvent.mk (InputMessage.mk 100 0) 7],
      sent.channel = .InputChannel ∧
      sent.message = InputMessage.mk 100 0 ∧
      sent.target = .AllExceptSingle 7 ∧
      sent.target.targets 7 = false ∧
      ∀ j, j ≠ 7 → sent.target.targets j = true :=
  (C3_relay_unchanged_all_except_sender
      [MessageEvent.mk (InputMessage.mk 100 0) 7]).2 _ (List.mem_singleton_self _)

/-- C2 counterexample: the server's input-relay path does not reject or
ignore a second input message for an already-recorded (peer, tick) pair.
With client 1 submitting two messages for tick 100 and one for tick 101,
`replicate_inputs` relays all three unchanged: dropping the duplicate would
change its output, so the duplicate is neither rejected nor ignored. -/
theorem C2_counterexample :
    ¬(replicate_inputs
          [MessageEvent.mk (InputMessage.mk 100 0) 1,
           MessageEvent.mk (InputMessage.mk 100 1) 1] =
        replicate_inputs [MessageEvent.mk (InputMessage.mk 100 0) 1]) ∧
    replicate_inputs
        [MessageEvent.mk (InputMessage.mk 100 0) 1,
         MessageEvent.mk (InputMessage.mk 100 1) 1,
         MessageEvent.mk (InputMessage.mk 101 2) 1] =
      [SentMessage.mk .InputChannel (InputMessage.mk 100 0) (.AllExceptSingle 1),
       SentMessage.mk .InputChannel (InputMessage.mk 100 1) (.AllExceptSingle 1),
       SentMessage.mk .InputChannel (InputMessage.mk 101 2) (.AllExceptSingle 1)] :=
  ⟨by decide, rfl⟩

/-- C2 amended: the server's input-relay path performs no write-once
validation: every drained input event — including a second submission for a
(peer, tick) pair already recorded by an earlier event — is rebroadcast at
its position, unchanged, on `InputChannel` to `AllExceptSingle(sender)`;
inputs for the next tick are processed the same way. -/
theorem C2_no_write_once_enforcement (input_events : List MessageEvent)
    (i : Nat) (hi : i < input_events.length) :
    (replicate_inputs input_events).get? i =
      some (SentMessage.mk .InputChannel (input_events.get ⟨i, hi⟩).message
        (.AllExceptSingle (input_events.get ⟨i, hi⟩).context)) := by
  simp [replicate_inputs, List.getElem?_map, List.getElem?_eq_getElem hi]

/-- Witness for C2: the duplicate tick-100 event at position 1 is relayed. -/
theorem C2_witness :
    (replicate_inputs
        [MessageEvent.mk (InputMessage.mk 100 0) 1,
         MessageEvent.mk (InputMessage.mk 100 1) 1]).get? 1 =
      some (SentMessage.mk .InputChannel (InputMessage.mk 100 1)
        (.AllExceptSingle 1)) :=
  C2_no_write_once_enforcement
    [MessageEvent.mk (InputMessage.mk 100 0) 1,
     MessageEvent.mk (InputMessage.mk 100 1) 1] 1 (by decide)

/-- C4: every player entity spawned by `handle_connections` carries an
override on its `ActionState` input component whose target is
`AllExceptSingle` of the owning client's id: the owner is excluded from the
component's replication target while every other client id is included. -/
theorem C4_action_state_override (player_n : Nat) (events : List ConnectEvent)
    (b : PlayerBundle) (hb : b ∈ handle_connections player_n events) :
    b.override_action_state = .AllExceptSingle b.player_client_id ∧
    b.override_action_state.targets b.player_client_id = false ∧
    ∀ j, j ≠ b.player_client_id → b.override_action_state.targets j = true := by
  induction events generalizing player_n with
  | nil => cases hb
  | cons c rest ih =>
    simp only [handle_connections] at hb
    rcases List.mem_cons.mp hb with h | h
    · subst h
      exact ⟨rfl, by simp [NetworkTarget.targets],
        fun j hj => by simp [NetworkTarget.targets, hj]⟩
    · exact ih _ h

/-- Witness for C4: the entity spawned for a first connection by client 7. -/
theorem C4_witness :
    (PlayerBundle.mk 7 (pick_player_name 7) .All (.Single 7) 0
        (.AllExceptSingle 7)).override_action_state = .AllExceptSingle 7 ∧
    NetworkTarget.targets (.AllExceptSingle 7) 7 = false ∧
    ∀ j, j ≠ 7 → NetworkTarget.targets (.AllExceptSingle 7) j = true :=
  C4_action_state_override 0 [ConnectEvent.mk 7] _ (List.mem_singleton_self _)

/-- C9 counterexample: on Windows, a connection-reset notification
surfaced by the pre-send `peek_from` DOES cause the send call itself to
fail: with the peek reporting `ConnectionReset` and the underlying
`send_to` succeeding, `send` returns `Err(ConnectionReset)` rather than
`Ok(())` — the notification is not suppressed. -/
theorem C9_counterexample :
    (UdpSocketBuffer.mk 0 (List.replicate MTU 0)).send true
        (SendEnv.mk (.error .connectionReset) (.ok 3)) [1, 2, 3]
        (SocketAddr.mk 9 9) =
      .error .connectionReset ∧
    (UdpSocketBuffer.mk 0 (List.replicate MTU 0)).send true
        (SendEnv.mk (.error .connectionReset) (.ok 3)) [1, 2, 3]
        (SocketAddr.mk 9 9) ≠
      .ok () :=
  ⟨rfl, fun h => Except.noConfusion h⟩

/-- C9 amended: on Windows, `send` peeks the socket without consuming data
before sending; an `Ok` or `WouldBlock` peek outcome lets the send proceed
exactly as on non-Windows targets (where no peek happens and only the
`send_to` outcome matters), while any other peek error — connection reset
included — is returned as the send call's error. -/
theorem C9_send_peek_handling (st : UdpSocketBuffer) (env : SendEnv)
    (payload : List Nat) (address : SocketAddr) :
    (∀ env' : SendEnv, env.sendToResult = env'.sendToResult →
        st.send false env payload address = st.send false env' payload address) ∧
    (∀ n, env.peekResult = .ok n →
        st.send true env payload address = st.send false env payload address) ∧
    (env.peekResult = .error .wouldBlock →
        st.send true env payload address = st.send false env payload address) ∧
    (∀ e, e ≠ .wouldBlock → env.peekResult = .error e →
        st.send true env payload address = .error e) := by
  refine ⟨?_, ?_, ?_, ?_⟩
  · intro env' h
    simp [UdpSocketBuffer.send, h]
  · intro n h
    simp [UdpSocketBuffer.send, h]
  · intro h
    simp [UdpSocketBuffer.send, h]
  · intro e he h
    simp [UdpSocketBuffer.send, h, he]

/-- Witness for C9: a successful peek lets the send proceed; a peek error
of another kind is returned as the send's error. -/
theorem C9_witness :
    (UdpSocketBuffer.mk 0 (List.replicate MTU 0)).send true
        (SendEnv.mk (.ok 1) (.ok 3)) [2] (SocketAddr.mk 9 9) =
      (UdpSocketBuffer.mk 0 (List.replicate MTU 0)).send false
        (SendEnv.mk (.ok 1) (.ok 3)) [2] (SocketAddr.mk 9 9) ∧
    (UdpSocketBuffer.mk 0 (List.replicate MTU 0)).send true
        (SendEnv.mk (.error (.other 4)) (.ok 3)) [2] (SocketAddr.mk 9 9) =
      .error (.other 4) :=
  ⟨(C9_send_peek_handling _ _ _ _).2.1 1 rfl,
   (C9_send_peek_handling _ (SendEnv.mk (.error (.other 4)) (.ok 3)) _ _).2.2.2
      (.other 4) (by decide) rfl⟩

/-- C8: the two halves produced by `build` (and handed out by `split`)
share the same underlying socket handle; each `send` and each `recv` call
performs its socket operations strictly between acquiring and releasing the
mutex; and under the mutex semantics no interleaving of a send call and a
recv call on different threads reaches a state where both are inside their
critical sections — on Windows (with its extra peek) and elsewhere. -/
theorem C8_shared_socket_mutual_exclusion :
    (∀ (b : UdpSocketBuilder) (env : BuildEnv) (s : UdpSocket),
        b.build env = .ok s → s.sender.socket = s.receiver.socket) ∧
    (∀ w : Bool, ∃ ops : List SockOp, sendSteps w =
        .acquire :: ops.map LockStep.sockOp ++ [.release]) ∧
    (∃ ops : List SockOp,
        recvSteps = .acquire :: ops.map LockStep.sockOp ++ [.release]) ∧
    (∀ (w : Bool) (s : LockState), LockReachable w s →
        ¬(inCritical (sendSteps w) s.senderRest ∧
            inCritical recvSteps s.receiverRest)) := by
  refine ⟨?_, ?_, ⟨[.recvFrom], rfl⟩,
    fun w s hs => lockReach_mutex w s (lockReachable_mem hs)⟩
  · intro b env s h
    unfold UdpSocketBuilder.build at h
    cases h1 : env.bindResult with
    | error e => rw [h1] at h; cases h
    | ok handle =>
      rw [h1] at h
      cases h2 : env.localAddrResult with
      | error e => rw [h2] at h; cases h
      | ok la =>
        rw [h2] at h
        cases h3 : env.setNonblockingResult with
        | error e => rw [h3] at h; cases h
        | ok u =>
          cases u
          rw [h3] at h
          cases h
          rfl
  · intro w
    cases w
    · exact ⟨[.sendTo], rfl⟩
    · exact ⟨[.peekFrom, .sendTo], rfl⟩

/-- Witness for C8: the halves of a concretely built socket share the
handle, and the initial interleaving state has neither call in its
critical section. -/
theorem C8_witness :
    (UdpSocket.mk (SocketAddr.mk 127 9000)
        (UdpSocketBuffer.mk 5 (List.replicate MTU 0))
        (UdpSocketBuffer.mk 5 (List.replicate MTU 0))).sender.socket =
      (UdpSocket.mk (SocketAddr.mk 127 9000)
        (UdpSocketBuffer.mk 5 (List.replicate MTU 0))
        (UdpSocketBuffer.mk 5 (List.replicate MTU 0))).receiver.socket ∧
    ¬(inCritical (sendSteps true) (lockInit true).senderRest ∧
        inCritical recvSteps (lockInit true).receiverRest) :=
  ⟨C8_shared_socket_mutual_exclusion.1 (UdpSocketBuilder.mk (SocketAddr.mk 0 0))
      (BuildEnv.mk (.ok 5) (.ok (SocketAddr.mk 127 9000)) (.ok ())) _ rfl,
   C8_shared_socket_mutual_exclusion.2.2.2 true (lockInit true) LockReachable.refl⟩

end Lightyear
